import Mathlib

/-!
Shallow embedding of the clause-relevance matching and report-orchestration
pipeline of `src/regulation_task` (comparison.py and inference.py), together
with theorems settling the frozen claims about it.

External collaborators (the sentence-transformers embedding model, the
`util.cos_sim` function, the Anthropic chat client, the filesystem and the
wall clock) are modelled as explicit parameters: an abstract `Provider`
bundling `encode` and `cosSim`, an `Env` for the filesystem, a
`String → Nat → Except String String` function for the report-writing LLM and
a `String` timestamp.  Python exceptions are modelled with `Except String`;
Python `None` with `Option.none`; floating point scores with `ℚ`.
-/

namespace RegulationTask

/-! ## comparison.py: clause segmentation (extract_clauses) -/

/-- Whitespace characters removed by Python `str.strip()` (the ASCII range:
space, tab, newline, carriage return, vertical tab, form feed). -/
def pyIsSpace (c : Char) : Bool :=
  c = ' ' || c = '\t' || c = '\n' || c = '\r' || c = '\x0b' || c = '\x0c'

/-- Python `str.strip()` on a character list: remove leading and trailing
whitespace. -/
def pyStripChars (cs : List Char) : List Char :=
  (cs.dropWhile pyIsSpace).rdropWhile pyIsSpace

/-- Python `str.strip()`. -/
def pyStrip (s : String) : String :=
  String.mk (pyStripChars s.data)

/-- Python `text.split("\n\n")`: split on each leftmost non-overlapping
occurrence of two consecutive newline characters. -/
def splitBlank : List Char → List (List Char)
  | [] => [[]]
  | '\n' :: '\n' :: rest => [] :: splitBlank rest
  | c :: rest =>
    match splitBlank rest with
    | [] => [[c]]
    | p :: ps => (c :: p) :: ps

/-- comparison.py `extract_clauses`: split the document text on blank lines
(two consecutive newlines), strip each candidate, and keep the candidates that
are non-empty after stripping, in source order. -/
def extract_clauses (text : String) : List String :=
  (((splitBlank text.data).map pyStripChars).filter (fun cs => cs ≠ [])).map String.mk

theorem splitBlank_ne_nil (cs : List Char) : splitBlank cs ≠ [] := by
  induction cs using splitBlank.induct with
  | case1 => simp [splitBlank]
  | case2 rest ih => simp [splitBlank]
  | case3 c rest hne h ih => exact absurd h ih
  | case4 c rest hne p ps h ih =>
    rw [splitBlank.eq_def]
    split
    · simp
    · simp
    · split <;> simp

theorem splitBlank_cons_of_ok (c : Char) (rest : List Char)
    (hne : ∀ rest', ¬ (c = '\n' ∧ rest = '\n' :: rest')) :
    splitBlank (c :: rest) =
      match splitBlank rest with
      | [] => [[c]]
      | p :: ps => (c :: p) :: ps := by
  rw [splitBlank.eq_def]
  split
  · rename_i heq
    exact absurd heq (List.cons_ne_nil c rest)
  · rename_i rest' heq
    injection heq with h1 h2
    exact absurd ⟨h1, h2⟩ (hne rest')
  · rename_i c' rest' hx heq
    injection heq with h1 h2
    subst h1; subst h2
    rfl

theorem splitBlank_length_one : ∀ {cs : List Char}, (splitBlank cs).length = 1 →
    splitBlank cs = [cs] := by
  intro cs
  induction cs using splitBlank.induct with
  | case1 => simp [splitBlank]
  | case2 rest ih =>
    intro h
    have hne := splitBlank_ne_nil rest
    have h0 : (splitBlank rest).length ≠ 0 := by
      simpa [List.length_eq_zero] using hne
    simp only [splitBlank, List.length_cons] at h
    omega
  | case3 c rest hne h ih => exact absurd h (splitBlank_ne_nil rest)
  | case4 c rest hne p ps h ih =>
    intro hlen
    have hcons := splitBlank_cons_of_ok c rest (fun r hr => hne r hr.1 hr.2)
    rw [h] at hcons
    simp only at hcons
    rw [hcons] at hlen ⊢
    simp only [List.length_cons] at hlen
    have hps : ps = [] := by
      cases ps with
      | nil => rfl
      | cons q qs => simp at hlen
    subst hps
    have hlr : (splitBlank rest).length = 1 := by rw [h]; rfl
    have hr := ih hlr
    rw [h] at hr
    injection hr with h1 _
    rw [h1]

theorem mem_of_mem_splitBlank :
    ∀ {cs p : List Char}, p ∈ splitBlank cs → ∀ c ∈ p, c ∈ cs := by
  intro cs
  induction cs using splitBlank.induct with
  | case1 =>
    intro p hp c hc
    simp [splitBlank] at hp
    subst hp
    simp at hc
  | case2 rest ih =>
    intro p hp c hc
    simp only [splitBlank, List.mem_cons] at hp
    rcases hp with hp | hp
    · subst hp; simp at hc
    · simp [ih hp c hc]
  | case3 c0 rest hne h ih =>
    intro p hp c hc
    exact absurd h (splitBlank_ne_nil rest)
  | case4 c0 rest hne p0 ps h ih =>
    intro p hp c hc
    have hcons := splitBlank_cons_of_ok c0 rest (fun r hr => hne r hr.1 hr.2)
    rw [h] at hcons
    simp only at hcons
    rw [hcons] at hp
    rcases List.mem_cons.mp hp with hp | hp
    · subst hp
      rcases List.mem_cons.mp hc with hc | hc
      · simp [hc]
      · have : c ∈ rest := ih (h ▸ List.mem_cons_self p0 ps) c hc
        simp [this]
    · have : c ∈ rest := ih (h ▸ List.mem_cons_of_mem p0 hp) c hc
      simp [this]

theorem pyStripChars_eq_nil_of_all {cs : List Char}
    (h : ∀ c ∈ cs, pyIsSpace c = true) : pyStripChars cs = [] := by
  unfold pyStripChars
  rw [List.dropWhile_eq_nil_iff.mpr h]
  simp

theorem pyStripChars_idem (cs : List Char) :
    pyStripChars (pyStripChars cs) = pyStripChars cs := by
  unfold pyStripChars
  set A := cs.dropWhile pyIsSpace with hA
  obtain ⟨t, ht⟩ := List.rdropWhile_prefix pyIsSpace A
  cases hR : List.rdropWhile pyIsSpace A with
  | nil => simp
  | cons r rs =>
    have hrA : A = r :: (rs ++ t) := by rw [← ht, hR]; rfl
    have h0 : 0 < A.length := by rw [hrA]; simp
    have hnr : ¬ pyIsSpace (A.get ⟨0, h0⟩) = true :=
      List.dropWhile_get_zero_not pyIsSpace cs (hA ▸ h0)
    have hget : A.get ⟨0, h0⟩ = r := by
      simpa using List.get_of_eq hrA ⟨0, h0⟩
    rw [hget] at hnr
    rw [List.dropWhile_cons_of_neg hnr, ← hR]
    exact List.rdropWhile_idempotent pyIsSpace _

theorem string_mk_ne_empty {ds : List Char} (h : ds ≠ []) : String.mk ds ≠ "" := by
  intro he
  exact h (congrArg String.data he)

/-- Claim C3 as frozen is refuted at the one-character text " ": it contains
no blank-line delimiter (its split has exactly one piece), yet
`extract_clauses` returns the empty list, not one clause. -/
theorem claim_C3_cex :
    (splitBlank (String.data " ")).length = 1 ∧ (extract_clauses " ").length ≠ 1 := by
  constructor
  · rfl
  · decide

/-- Claim C3 (amended): for every text containing no blank-line delimiter and
not whitespace-only (its stripped form is non-empty), `extract_clauses`
returns exactly one clause, the trimmed text. -/
theorem claim_C3_amended (T : String) (h1 : (splitBlank T.data).length = 1)
    (h2 : pyStrip T ≠ "") : extract_clauses T = [pyStrip T] := by
  have hsplit := splitBlank_length_one h1
  have hne : pyStripChars T.data ≠ [] := by
    intro h
    apply h2
    rw [pyStrip, h]
  rw [extract_clauses, hsplit]
  simp [hne, pyStrip]

/-- Witness for the amended claim C3 at the concrete text "a\nb". -/
theorem claim_C3_amended_w : extract_clauses "a\nb" = [pyStrip "a\nb"] :=
  claim_C3_amended "a\nb" (by rfl) (by decide)

/-- Claim C4: a text that is empty or whitespace-only yields no clauses, and
every clause `extract_clauses` returns is non-empty after trimming. -/
theorem claim_C4 :
    (∀ T : String, (∀ c ∈ T.data, pyIsSpace c = true) → extract_clauses T = [])
    ∧ (∀ (T c : String), c ∈ extract_clauses T → pyStrip c ≠ "") := by
  constructor
  · intro T hT
    have hfil : ((splitBlank T.data).map pyStripChars).filter (fun cs => cs ≠ []) = [] := by
      rw [List.filter_eq_nil_iff]
      intro x hx
      simp only [List.mem_map] at hx
      obtain ⟨piece, hpiece, hpx⟩ := hx
      have hall : ∀ c ∈ piece, pyIsSpace c = true :=
        fun c hc => hT c (mem_of_mem_splitBlank hpiece c hc)
      simp [← hpx, pyStripChars_eq_nil_of_all hall]
    rw [extract_clauses, hfil]
    rfl
  · intro T c hc
    simp only [extract_clauses, List.mem_map, List.mem_filter] at hc
    obtain ⟨ds, ⟨hmem, hne⟩, hds⟩ := hc
    obtain ⟨es, _, hes⟩ := hmem
    have hdsne : ds ≠ [] := by simpa using hne
    have hidem : pyStripChars ds = ds := by
      rw [← hes]
      exact pyStripChars_idem es
    rw [← hds]
    show pyStrip (String.mk ds) ≠ ""
    rw [pyStrip]
    show String.mk (pyStripChars ds) ≠ ""
    rw [hidem]
    exact string_mk_ne_empty hdsne

/-- Witness for claim C4 at the concrete whitespace-only text and a concrete
clause of a two-clause document. -/
theorem claim_C4_w :
    extract_clauses " \n " = [] ∧ pyStrip "a" ≠ "" :=
  ⟨claim_C4.1 " \n " (by decide), claim_C4.2 "a\n\nb" "a" (by decide)⟩

/-! ## comparison.py: relevance scoring (find_relevant_clauses) -/

/-- The sentence-transformers collaborator: `encode` maps a text to an
embedding vector (and may fail, modelling a provider error), `cosSim` is
`util.cos_sim` restricted to one pair of vectors. -/
structure Provider where
  encode : String → Except String (List ℚ)
  cosSim : List ℚ → List ℚ → ℚ

/-- comparison.py `encode_text` on a single text. -/
def encode_text (P : Provider) (text : String) : Except String (List ℚ) :=
  P.encode text

/-- comparison.py `encode_text` on a batch of texts (`is_multiple_texts`):
one embedding per text, a failure anywhere failing the batch. -/
def encode_texts (P : Provider) (texts : List String) : Except String (List (List ℚ)) :=
  texts.mapM P.encode

/-- comparison.py `calculate_similarity`: cosine similarity between the SOP
embedding and each clause embedding, one score per clause. -/
def calculate_similarity (P : Provider) (sop_embedding : List ℚ)
    (clause_embeddings : List (List ℚ)) : List ℚ :=
  clause_embeddings.map (P.cosSim sop_embedding)

/-- comparison.py `find_relevant_clauses`: embed the SOP text and the clause
batch, score each clause, and collect the (clause, score) pairs whose score
reaches the threshold (default 0.4), in input order. -/
def find_relevant_clauses (P : Provider) (sop_text : String) (clauses : List String)
    (threshold : ℚ := 0.4) : Except String (List (String × ℚ)) := do
  let sop_embedding ← encode_text P sop_text
  let clause_embeddings ← encode_texts P clauses
  let cosine_scores := calculate_similarity P sop_embedding clause_embeddings
  pure ((clauses.zip cosine_scores).foldl
    (fun relevant cs => if cs.2 ≥ threshold then relevant ++ [cs] else relevant) [])

theorem foldl_append_if_eq_filter {α : Type} (p : α → Prop) [DecidablePred p] :
    ∀ (l acc : List α),
      l.foldl (fun r x => if p x then r ++ [x] else r) acc
        = acc ++ l.filter (fun x => decide (p x)) := by
  intro l
  induction l with
  | nil => simp
  | cons x xs ih =>
    intro acc
    by_cases h : p x <;> simp [h, ih, List.filter_cons]

theorem find_relevant_clauses_ok (threshold : ℚ) {P : Provider} {sop_text : String}
    {clauses : List String} {sop_embedding : List ℚ} {clause_embeddings : List (List ℚ)}
    (h1 : P.encode sop_text = Except.ok sop_embedding)
    (h2 : clauses.mapM P.encode = Except.ok clause_embeddings) :
    find_relevant_clauses P sop_text clauses threshold
      = Except.ok ((clauses.zip (calculate_similarity P sop_embedding clause_embeddings)).filter
          (fun cs => cs.2 ≥ threshold)) := by
  unfold find_relevant_clauses encode_text encode_texts
  rw [h1, h2]
  show Except.ok _ = _
  congr 1
  exact foldl_append_if_eq_filter (fun cs : String × ℚ => cs.2 ≥ threshold) _ []

theorem mapM_ok_length {α β : Type} (f : α → Except String β) :
    ∀ {l : List α} {l' : List β}, l.mapM f = Except.ok l' → l'.length = l.length := by
  intro l
  induction l with
  | nil =>
    intro l' h
    rw [← List.mapM'_eq_mapM] at h
    simp only [List.mapM'] at h
    injection h with h
    simp [← h]
  | cons a as ih =>
    intro l' h
    rw [← List.mapM'_eq_mapM] at h
    simp only [List.mapM'] at h
    cases hfa : f a with
    | error e => rw [hfa] at h; exact absurd h (by simp [Bind.bind, Except.bind])
    | ok b =>
      rw [hfa] at h
      simp only [Bind.bind, Except.bind] at h
      cases hmas : List.mapM' f as with
      | error e => rw [hmas] at h; exact absurd h (by simp)
      | ok bs =>
        rw [hmas] at h
        simp only [pure, Except.pure, Except.ok.injEq] at h
        rw [← h]
        have := @ih bs (by rw [← List.mapM'_eq_mapM]; exact hmas)
        simp [this]

/-- Claim C1: find_relevant_clauses returns exactly the (clause, score) pairs
whose cosine-similarity score reaches the threshold (inclusive), one score per
clause, in input order, and the threshold parameter defaults to 0.4 = 2/5. -/
theorem claim_C1 (P : Provider) (sop_text : String) (clauses : List String) (threshold : ℚ)
    (sop_embedding : List ℚ) (clause_embeddings : List (List ℚ))
    (h1 : P.encode sop_text = Except.ok sop_embedding)
    (h2 : clauses.mapM P.encode = Except.ok clause_embeddings) :
    find_relevant_clauses P sop_text clauses threshold
      = Except.ok ((clauses.zip (calculate_similarity P sop_embedding clause_embeddings)).filter
          (fun cs => cs.2 ≥ threshold))
    ∧ find_relevant_clauses P sop_text clauses
      = find_relevant_clauses P sop_text clauses (2/5) := by
  refine ⟨find_relevant_clauses_ok threshold h1 h2, ?_⟩
  norm_num

/-- Concrete embedding provider for witnesses: every text embeds to [1] and
every similarity is 1/2. -/
def providerHalf : Provider :=
  ⟨fun _ => Except.ok [1], fun _ _ => (1 : ℚ) / 2⟩

/-- Witness for claim C1 at a concrete provider, clause list and threshold. -/
theorem claim_C1_w :
    find_relevant_clauses providerHalf "sop" ["a", "b"] (2/5)
      = Except.ok ((["a", "b"].zip (calculate_similarity providerHalf [1] [[1], [1]])).filter
          (fun cs => cs.2 ≥ (2/5 : ℚ)))
    ∧ find_relevant_clauses providerHalf "sop" ["a", "b"]
      = find_relevant_clauses providerHalf "sop" ["a", "b"] (2/5) :=
  claim_C1 providerHalf "sop" ["a", "b"] (2/5) [1] [[1], [1]] rfl rfl

/-- Claim C8: when every cosine-similarity score lies in [-1, 1], a threshold
of 1.1 retains nothing and a threshold of -1.1 retains every input clause. -/
theorem claim_C8 (P : Provider) (sop_text : String) (clauses : List String)
    (sop_embedding : List ℚ) (clause_embeddings : List (List ℚ))
    (h1 : P.encode sop_text = Except.ok sop_embedding)
    (h2 : clauses.mapM P.encode = Except.ok clause_embeddings)
    (hrange : ∀ q ∈ calculate_similarity P sop_embedding clause_embeddings,
      -1 ≤ q ∧ q ≤ 1) :
    find_relevant_clauses P sop_text clauses 1.1 = Except.ok []
    ∧ find_relevant_clauses P sop_text clauses (-1.1)
        = Except.ok (clauses.zip (calculate_similarity P sop_embedding clause_embeddings))
    ∧ (clauses.zip (calculate_similarity P sop_embedding clause_embeddings)).map Prod.fst
        = clauses := by
  have hlen : (calculate_similarity P sop_embedding clause_embeddings).length
      = clauses.length := by
    unfold calculate_similarity
    rw [List.length_map]
    exact mapM_ok_length P.encode h2
  refine ⟨?_, ?_, ?_⟩
  · rw [find_relevant_clauses_ok 1.1 h1 h2]
    congr 1
    rw [List.filter_eq_nil_iff]
    rintro ⟨c, q⟩ hcs
    have hq := (hrange q (List.of_mem_zip hcs).2).2
    simp only [decide_eq_true_eq]
    intro hge
    have hcontra : (1.1 : ℚ) ≤ 1 := le_trans hge hq
    norm_num at hcontra
  · rw [find_relevant_clauses_ok (-1.1) h1 h2]
    congr 1
    rw [List.filter_eq_self]
    rintro ⟨c, q⟩ hcs
    have hq := (hrange q (List.of_mem_zip hcs).2).1
    simp only [decide_eq_true_eq]
    show -1.1 ≤ q
    have hstep : (-1.1 : ℚ) ≤ -1 := by norm_num
    exact le_trans hstep hq
  · exact List.map_fst_zip clauses _ (le_of_eq hlen.symm)

/-- Witness for claim C8 at a concrete provider whose every score is 1/2. -/
theorem claim_C8_w :
    find_relevant_clauses providerHalf "sop" ["a", "b"] 1.1 = Except.ok []
    ∧ find_relevant_clauses providerHalf "sop" ["a", "b"] (-1.1)
        = Except.ok (["a", "b"].zip (calculate_similarity providerHalf [1] [[1], [1]]))
    ∧ (["a", "b"].zip (calculate_similarity providerHalf [1] [[1], [1]])).map Prod.fst
        = ["a", "b"] :=
  claim_C8 providerHalf "sop" ["a", "b"] [1] [[1], [1]] rfl rfl
    (by
      intro q hq
      have hq' : q = 1 / 2 := by
        simpa [calculate_similarity, providerHalf] using hq
      rw [hq']
      constructor <;> norm_num)

/-! ## Filesystem environment and comparison.py orchestration -/

/-- The filesystem as the pipeline observes it: `files` is the readable
content of each path (`none` models a file whose `open` raises
FileNotFoundError), `listing` is `os.listdir`, `pathExists` is
`os.path.exists`. -/
structure Env where
  files : String → Option String
  listing : String → List String
  pathExists : String → Bool

/-- comparison.py `load_text`: read a file in full, raising (modelled as
`Except.error`) when it cannot be opened. -/
def load_text (env : Env) (file_path : String) : Except String String :=
  match env.files file_path with
  | some t => Except.ok t
  | none => Except.error ("FileNotFoundError: " ++ file_path)

/-- Python `str.lower()` (ASCII case folding). -/
def pyLower (s : String) : String :=
  String.mk (s.data.map Char.toLower)

/-- Python `str.endswith(suffix)`. -/
def pyEndsWith (s suffix : String) : Bool :=
  suffix.data.isSuffixOf s.data

/-- Python `os.path.join` for the cases this pipeline exercises: `b` when `b`
is absolute, `a ++ b` when `a` is empty or already ends in the separator, and
`a ++ "/" ++ b` otherwise. -/
def pyJoin (a b : String) : String :=
  if b.data.take 1 = ['/'] then b
  else if a = "" || a.data.getLast? = some '/' then a ++ b
  else a ++ "/" ++ b

/-- comparison.py `process_single_regulatory_doc`: load the regulatory text,
segment it and score it against the SOP with the default threshold. -/
def process_single_regulatory_doc (P : Provider) (env : Env)
    (sop_text reg_file_path : String) : Except String (List (String × ℚ)) := do
  let regulatory_text ← load_text env reg_file_path
  let clauses := extract_clauses regulatory_text
  find_relevant_clauses P sop_text clauses

/-- comparison.py `process_regulatory_docs` (folder mode): walk the folder
listing, process each file whose lowercased name ends in "_extracted.txt", and
aggregate a (filename, relevant clauses) pair for each document that yields a
non-empty clause list.  Exceptions propagate out of the loop. -/
def process_regulatory_docs (P : Provider) (env : Env)
    (sop_file regulatory_docs_folder : String) :
    Except String (List (String × List (String × ℚ))) := do
  let sop_text ← load_text env sop_file
  (env.listing regulatory_docs_folder).foldlM
    (fun all_relevant_clauses filename =>
      if pyEndsWith (pyLower filename) "_extracted.txt" then do
        let file_path := pyJoin regulatory_docs_folder filename
        let relevant_clauses ← process_single_regulatory_doc P env sop_text file_path
        if relevant_clauses.isEmpty then pure all_relevant_clauses
        else pure (all_relevant_clauses ++ [(filename, relevant_clauses)])
      else pure all_relevant_clauses)
    []

/-- comparison.py `process_specific_reg_file`: `None` (modelled as
`Option.none`) when the regulation path does not exist, otherwise the scored
clause list of that one document. -/
def process_specific_reg_file (P : Provider) (env : Env)
    (sop_file reg_file_path : String) : Except String (Option (List (String × ℚ))) :=
  if env.pathExists reg_file_path = false then Except.ok none
  else do
    let sop_text ← load_text env sop_file
    let r ← process_single_regulatory_doc P env sop_text reg_file_path
    pure (some r)

/-! ## inference.py: prompt composition, generation, persistence -/

/-- Round `num / den` (with `den > 0`) to the nearest integer, ties to even,
matching the rounding of Python float formatting at exactly representable
values. -/
def roundHalfEven (num den : Int) : Int :=
  let f := Int.fdiv num den
  let r := num - f * den
  if 2 * r < den then f
  else if den < 2 * r then f + 1
  else if f % 2 = 0 then f else f + 1

/-- Left-pad a value below 1000 to three digits. -/
def pad3 (k : Nat) : String :=
  if k < 10 then "00" ++ toString k
  else if k < 100 then "0" ++ toString k
  else toString k

/-- Python `f"{x:.3f}"` on an exact rational score. -/
def format3f (q : ℚ) : String :=
  let n := roundHalfEven (q.num * 1000) (q.den : Int)
  let sign := if q.num < 0 then "-" else ""
  let m := n.natAbs
  sign ++ toString (m / 1000) ++ "." ++ pad3 (m % 1000)

/-- inference.py `create_prompt`: the fixed compliance-analysis template
around the SOP text, the rendered relevant clauses and the regulation name. -/
def create_prompt (sop_text : String) (relevant_clauses : List (String × ℚ))
    (reg_name : String) : String :=
  let clauses_text := String.intercalate "\n\n"
    (relevant_clauses.map (fun p => "Clause (score: " ++ format3f p.2 ++ "): " ++ p.1))
  "\nYou are an expert in regulatory compliance analysis. Your task is to analyze a Standard Operating Procedure (SOP) document and determine its compliance with relevant regulatory clauses.\n\n### SOP DOCUMENT:\n"
    ++ sop_text
    ++ "\n\n### RELEVANT REGULATORY CLAUSES FROM "
    ++ reg_name
    ++ ":\n"
    ++ clauses_text
    ++ "\n\nPlease provide a detailed compliance analysis report that includes:\n1. Overview of the SOP document's purpose and scope\n2. Analysis of each relevant regulatory clause and how it applies to the SOP\n3. Identification of any compliance issues or gaps in the SOP\n4. Specific recommendations for adjustments to bring the SOP into full compliance\n5. Summary of compliance status\n\nFormat your analysis as a professional compliance report with clear sections and actionable insights.\n"

/-- inference.py `generate_report_with_claude`: one call to the report LLM
(`client`, modelled as a function that either returns the generated text or
fails); any failure is caught and folded into the returned string as
"Error: ...". -/
def generate_report_with_claude (client : String → Nat → Except String String)
    (prompt : String) (max_tokens : Nat := 4000) : String :=
  match client prompt max_tokens with
  | Except.ok text => text
  | Except.error e => "Error: " ++ e

/-- Python `os.path.basename`: the component after the last '/'. -/
def os_basename (p : String) : String :=
  String.mk (List.rtakeWhile (fun c => c ≠ '/') p.data)

/-- Python `os.path.splitext(p)[0]`: everything before the last '.', unless
that dot belongs to the leading dots of the final path component. -/
def splitext_root (p : String) : String :=
  let tail := List.rtakeWhile (fun c => c ≠ '/') p.data
  let stem := tail.dropWhile (fun c => c = '.')
  if stem.any (fun c => c = '.') then
    String.mk ((p.data.reverse.dropWhile (fun c => c ≠ '.')).tail.reverse)
  else p

/-- inference.py `save_report`: write the report under the output directory as
compliance_report_{base name}_{timestamp}.txt and return the path.  The
timestamp (datetime.now().strftime("%Y%m%d_%H%M%S")) and the filesystem are
explicit parameters; the returned function is the filesystem after the
write. -/
def save_report (timestamp : String) (fs : String → Option String)
    (report reg_name : String) (output_dir : String := "reports") :
    String × (String → Option String) :=
  let base_name := splitext_root (os_basename reg_name)
  let filename := "compliance_report_" ++ base_name ++ "_" ++ timestamp ++ ".txt"
  let filepath := pyJoin output_dir filename
  (filepath, fun q => if q = filepath then some report else fs q)

/-- inference.py `analyze_specific_regulation`: score one regulation against
the SOP and, when any relevant clauses were found, generate and save a report,
returning its path and the updated filesystem; `None` (with the filesystem
unchanged) when the file was missing or nothing was relevant. -/
def analyze_specific_regulation (P : Provider) (env : Env)
    (client : String → Nat → Except String String) (timestamp : String)
    (fs : String → Option String) (sop_file reg_file_path : String) :
    Except String (Option String × (String → Option String)) := do
  let reg_name := os_basename reg_file_path
  let relevant_clauses ← process_specific_reg_file P env sop_file reg_file_path
  match relevant_clauses with
  | none => pure (none, fs)
  | some [] => pure (none, fs)
  | some rcs => do
    let sop_text ← load_text env sop_file
    let prompt := create_prompt sop_text rcs reg_name
    let report := generate_report_with_claude client prompt
    let pr := save_report timestamp fs report reg_name
    pure (some pr.1, pr.2)

/-- inference.py `analyze_all_regulations`: folder mode; score every eligible
regulation, then generate and save one report per aggregated result,
returning the report paths and the final filesystem. -/
def analyze_all_regulations (P : Provider) (env : Env)
    (client : String → Nat → Except String String) (timestamp : String)
    (fs : String → Option String) (sop_file regulatory_folder : String) :
    Except String (List String × (String → Option String)) := do
  let results ← process_regulatory_docs P env sop_file regulatory_folder
  if results.isEmpty then pure ([], fs)
  else do
    let sop_text ← load_text env sop_file
    pure (results.foldl
      (fun acc dc =>
        let prompt := create_prompt sop_text dc.2 dc.1
        let report := generate_report_with_claude client prompt
        let pr := save_report timestamp acc.2 report dc.1
        (acc.1 ++ [pr.1], pr.2))
      ([], fs))

/-! ## Claims C5, C6, C7, C10 -/

/-- Claim C5: save_report writes the report under the output directory as
compliance_report_{base name}_{timestamp}.txt where the base name is the
regulation name stripped of directory prefix and extension; the stored content
round-trips exactly and the returned value is the written path. -/
theorem claim_C5 :
    (∀ (fs : String → Option String) (report reg_name output_dir timestamp : String),
      (save_report timestamp fs report reg_name output_dir).1
        = pyJoin output_dir ("compliance_report_" ++ splitext_root (os_basename reg_name)
            ++ "_" ++ timestamp ++ ".txt")
      ∧ (save_report timestamp fs report reg_name output_dir).2
          ((save_report timestamp fs report reg_name output_dir).1) = some report
      ∧ ∀ c ∈ (os_basename reg_name).data, c ≠ '/')
    ∧ splitext_root (os_basename "regulations/Reg A.txt") = "Reg A" := by
  constructor
  · intro fs report reg_name output_dir timestamp
    constructor
    · rfl
    constructor
    · simp [save_report]
    · intro c hc
      simp only [os_basename] at hc
      simpa using List.mem_rtakeWhile_imp hc
  · rfl

/-- Witness for claim C5 at a concrete report, regulation name and
directory. -/
theorem claim_C5_w :
    (save_report "20250101_120000" (fun _ => none) "the report" "Reg A.txt" "reports").1
      = pyJoin "reports" ("compliance_report_" ++ splitext_root (os_basename "Reg A.txt")
          ++ "_" ++ "20250101_120000" ++ ".txt")
    ∧ (save_report "20250101_120000" (fun _ => none) "the report" "Reg A.txt" "reports").2
        ((save_report "20250101_120000" (fun _ => none) "the report" "Reg A.txt" "reports").1)
      = some "the report" :=
  ⟨(claim_C5.1 (fun _ => none) "the report" "Reg A.txt" "reports" "20250101_120000").1,
   (claim_C5.1 (fun _ => none) "the report" "Reg A.txt" "reports" "20250101_120000").2.1⟩

/-- Claim C6 as frozen is refuted: generation failures are not signalled as a
typed failure distinguishable from a successful report.  A provider failure
"boom" and a successful report whose text happens to be "Error: boom" produce
identical return values. -/
theorem claim_C6_cex :
    (fun _ _ => (Except.error "boom" : Except String String)) "p" 4000 = Except.error "boom"
    ∧ (fun _ _ => (Except.ok "Error: boom" : Except String String)) "p" 4000
        = Except.ok "Error: boom"
    ∧ generate_report_with_claude (fun _ _ => Except.error "boom") "p" 4000
        = generate_report_with_claude (fun _ _ => Except.ok "Error: boom") "p" 4000 :=
  ⟨rfl, rfl, rfl⟩

/-- Claim C6 (amended): when the LLM call fails the exception is caught and
the error description is folded into the returned report string as
"Error: ..." (so the caller always receives a plain string and the exception
never propagates), and a successful call returns the generated text. -/
theorem claim_C6_amended :
    (∀ (client : String → Nat → Except String String) (prompt : String)
      (max_tokens : Nat) (e : String),
      client prompt max_tokens = Except.error e →
        generate_report_with_claude client prompt max_tokens = "Error: " ++ e)
    ∧ (∀ (client : String → Nat → Except String String) (prompt : String)
      (max_tokens : Nat) (t : String),
      client prompt max_tokens = Except.ok t →
        generate_report_with_claude client prompt max_tokens = t) := by
  constructor <;> intro client prompt mt x h <;> simp [generate_report_with_claude, h]

/-- Witness for the amended claim C6: a concrete failing provider. -/
theorem claim_C6_amended_w :
    generate_report_with_claude (fun _ _ => Except.error "quota exceeded") "p" 4000
      = "Error: " ++ "quota exceeded" :=
  claim_C6_amended.1 (fun _ _ => Except.error "quota exceeded") "p" 4000 "quota exceeded" rfl

set_option maxRecDepth 8000 in
/-- Claim C7: create_prompt is a deterministic template around its inputs:
a fixed preamble, the SOP text verbatim, the regulation name, the relevant
clauses each rendered as "Clause (score: ...): ..." and joined by blank lines,
and a fixed tail containing the five numbered analysis instructions. -/
theorem claim_C7 : ∃ A C : String,
    (∀ (sop_text : String) (relevant_clauses : List (String × ℚ)) (reg_name : String),
      create_prompt sop_text relevant_clauses reg_name
        = A ++ sop_text ++ "\n\n### RELEVANT REGULATORY CLAUSES FROM " ++ reg_name ++ ":\n"
          ++ String.intercalate "\n\n" (relevant_clauses.map
              (fun p => "Clause (score: " ++ format3f p.2 ++ "): " ++ p.1))
          ++ C)
    ∧ (∃ g0 g1 g2 g3 g4 g5 : String,
        C = g0 ++ "1. Overview of the SOP document's purpose and scope" ++ g1
          ++ "2. Analysis of each relevant regulatory clause and how it applies to the SOP" ++ g2
          ++ "3. Identification of any compliance issues or gaps in the SOP" ++ g3
          ++ "4. Specific recommendations for adjustments to bring the SOP into full compliance" ++ g4
          ++ "5. Summary of compliance status" ++ g5)
    ∧ (∀ (s1 s2 : String) (cl1 cl2 : List (String × ℚ)) (r1 r2 : String),
        s1 = s2 → cl1 = cl2 → r1 = r2 →
          create_prompt s1 cl1 r1 = create_prompt s2 cl2 r2) := by
  refine ⟨"\nYou are an expert in regulatory compliance analysis. Your task is to analyze a Standard Operating Procedure (SOP) document and determine its compliance with relevant regulatory clauses.\n\n### SOP DOCUMENT:\n",
    "\n\nPlease provide a detailed compliance analysis report that includes:\n1. Overview of the SOP document's purpose and scope\n2. Analysis of each relevant regulatory clause and how it applies to the SOP\n3. Identification of any compliance issues or gaps in the SOP\n4. Specific recommendations for adjustments to bring the SOP into full compliance\n5. Summary of compliance status\n\nFormat your analysis as a professional compliance report with clear sections and actionable insights.\n",
    ?_, ?_, ?_⟩
  · intro sop_text relevant_clauses reg_name
    rfl
  · exact ⟨"\n\nPlease provide a detailed compliance analysis report that includes:\n",
      "\n", "\n", "\n", "\n",
      "\n\nFormat your analysis as a professional compliance report with clear sections and actionable insights.\n",
      by rfl⟩
  · intro s1 s2 cl1 cl2 r1 r2 h1 h2 h3
    rw [h1, h2, h3]

/-- Claim C10: a regulation path that does not exist makes
process_specific_reg_file return None without raising, and
analyze_specific_regulation then returns None exactly as it does for a
regulation whose scoring yields zero relevant clauses — the two outcomes are
indistinguishable at that interface. -/
theorem claim_C10 :
    (∀ (P : Provider) (env : Env) (client : String → Nat → Except String String)
      (timestamp : String) (fs : String → Option String) (sop_file reg_file_path : String),
      env.pathExists reg_file_path = false →
        process_specific_reg_file P env sop_file reg_file_path = Except.ok none
        ∧ analyze_specific_regulation P env client timestamp fs sop_file reg_file_path
            = Except.ok (none, fs))
    ∧ (∀ (P : Provider) (env : Env) (client : String → Nat → Except String String)
      (timestamp : String) (fs : String → Option String) (sop_file reg_file_path : String),
      process_specific_reg_file P env sop_file reg_file_path = Except.ok (some []) →
        analyze_specific_regulation P env client timestamp fs sop_file reg_file_path
          = Except.ok (none, fs)) := by
  constructor
  · intro P env client ts fs sop reg h
    have h1 : process_specific_reg_file P env sop reg = Except.ok none := by
      unfold process_specific_reg_file
      rw [h]
      simp
    refine ⟨h1, ?_⟩
    unfold analyze_specific_regulation
    rw [h1]
    rfl
  · intro P env client ts fs sop reg h
    unfold analyze_specific_regulation
    rw [h]
    rfl

/-- Concrete environment with no files at all, for the claim C10 witness. -/
def envEmpty : Env :=
  ⟨fun _ => none, fun _ => [], fun _ => false⟩

/-- Witness for claim C10: with a concrete environment in which the
regulation path does not exist, both functions return None. -/
theorem claim_C10_w :
    process_specific_reg_file providerHalf envEmpty "sop.txt" "reg.txt" = Except.ok none
    ∧ analyze_specific_regulation providerHalf envEmpty (fun _ _ => Except.ok "report")
        "20250101_120000" (fun _ => none) "sop.txt" "reg.txt"
      = Except.ok (none, (fun _ => none)) :=
  claim_C10.1 providerHalf envEmpty (fun _ _ => Except.ok "report")
    "20250101_120000" (fun _ => none) "sop.txt" "reg.txt" rfl

/-! ## Claims C9 and C2: folder mode -/

theorem exBind_ok {α β : Type} (a : α) (f : α → Except String β) :
    (Except.ok a >>= f) = f a := rfl

theorem exBind_error {α β : Type} (e : String) (f : α → Except String β) :
    ((Except.error e : Except String α) >>= f) = Except.error e := rfl

theorem exPure_bind {α β : Type} (a : α) (f : α → Except String β) :
    ((pure a : Except String α) >>= f) = f a := rfl

/-- The aggregate the spec describes for folder mode: one
(filename, relevant clauses) entry per eligible file whose processing yields a
non-empty clause list, in listing order. -/
def folder_aggregate_spec (P : Provider) (env : Env) (sop_text folder : String) :
    List (String × List (String × ℚ)) :=
  (env.listing folder).filterMap (fun f =>
    if pyEndsWith (pyLower f) "_extracted.txt" then
      match process_single_regulatory_doc P env sop_text (pyJoin folder f) with
      | Except.ok rcs => if rcs.isEmpty then none else some (f, rcs)
      | Except.error _ => none
    else none)

theorem foldlM_step_ok (P : Provider) (env : Env) (sop_text folder : String) :
    ∀ (fs : List String) (acc : List (String × List (String × ℚ))),
      (∀ f ∈ fs, pyEndsWith (pyLower f) "_extracted.txt" = true →
        (process_single_regulatory_doc P env sop_text (pyJoin folder f)).isOk = true) →
      fs.foldlM
        (fun all_relevant_clauses filename =>
          if pyEndsWith (pyLower filename) "_extracted.txt" then do
            let file_path := pyJoin folder filename
            let relevant_clauses ← process_single_regulatory_doc P env sop_text file_path
            if relevant_clauses.isEmpty then pure all_relevant_clauses
            else pure (all_relevant_clauses ++ [(filename, relevant_clauses)])
          else pure all_relevant_clauses)
        acc
      = Except.ok (acc ++ fs.filterMap (fun f =>
          if pyEndsWith (pyLower f) "_extracted.txt" then
            match process_single_regulatory_doc P env sop_text (pyJoin folder f) with
            | Except.ok rcs => if rcs.isEmpty then none else some (f, rcs)
            | Except.error _ => none
          else none)) := by
  intro fs
  induction fs with
  | nil =>
    intro acc h
    simp [List.foldlM]
    rfl
  | cons f fs ih =>
    intro acc h
    rw [List.foldlM_cons, List.filterMap_cons]
    by_cases he : pyEndsWith (pyLower f) "_extracted.txt" = true
    · cases hproc : process_single_regulatory_doc P env sop_text (pyJoin folder f) with
      | error e =>
        have hok := h f (List.mem_cons_self f fs) he
        rw [hproc] at hok
        simp [Except.isOk, Except.toBool] at hok
      | ok rcs =>
        by_cases hre : rcs.isEmpty = true
        · simp only [he, if_true, hproc, hre, exBind_ok]
          rw [exPure_bind]
          exact ih acc (fun g hg => h g (List.mem_cons_of_mem f hg))
        · rw [Bool.not_eq_true] at hre
          simp only [he, if_true, hproc, hre, Bool.false_eq_true, if_false, exBind_ok]
          rw [exPure_bind,
            ih (acc ++ [(f, rcs)]) (fun g hg => h g (List.mem_cons_of_mem f hg))]
          simp
    · rw [Bool.not_eq_true] at he
      simp only [he, Bool.false_eq_true, if_false]
      rw [exPure_bind]
      exact ih acc (fun g hg => h g (List.mem_cons_of_mem f hg))

/-- Claim C9: folder mode aggregates one (regulation, relevant clauses) entry
per eligible file whose scoring yields at least one relevant clause, in
listing order, silently excluding eligible files whose scoring yields none. -/
theorem claim_C9 (P : Provider) (env : Env) (sop_file folder : String) (sop_text : String)
    (hload : load_text env sop_file = Except.ok sop_text)
    (hok : ∀ f ∈ env.listing folder,
      pyEndsWith (pyLower f) "_extracted.txt" = true →
      (process_single_regulatory_doc P env sop_text (pyJoin folder f)).isOk = true) :
    process_regulatory_docs P env sop_file folder
      = Except.ok (folder_aggregate_spec P env sop_text folder) := by
  unfold process_regulatory_docs
  rw [hload, exBind_ok]
  rw [foldlM_step_ok P env sop_text folder (env.listing folder) [] hok]
  simp [folder_aggregate_spec]

/-- Concrete provider for the folder-mode witnesses: the text "beta" embeds to
[0] and every other text to [1]; the similarity of a clause vector is its head
entry, so "beta" scores 0 (below threshold) and every other clause scores 1. -/
def providerBeta : Provider :=
  ⟨fun t => Except.ok (if t = "beta" then [0] else [1]),
   fun _ c => c.headD 0⟩

/-- Concrete three-regulation folder for the folder-mode witnesses: files one
and three yield a relevant clause, file two scores below the threshold, and an
ineligible file is also listed. -/
def envThree : Env :=
  ⟨fun p =>
      if p = "sop.txt" then some "sop text"
      else if p = "regs/one_extracted.txt" then some "alpha"
      else if p = "regs/two_extracted.txt" then some "beta"
      else if p = "regs/three_extracted.txt" then some "gamma"
      else none,
   fun _ => ["one_extracted.txt", "two_extracted.txt", "notes.txt", "three_extracted.txt"],
   fun p =>
      if p = "sop.txt" then true
      else if p = "regs/one_extracted.txt" then true
      else if p = "regs/two_extracted.txt" then true
      else if p = "regs/three_extracted.txt" then true
      else false⟩

theorem envThree_one :
    process_single_regulatory_doc providerBeta envThree "sop text"
      (pyJoin "regs" "one_extracted.txt") = Except.ok [("alpha", 1)] := by
  unfold process_single_regulatory_doc
  rw [show load_text envThree (pyJoin "regs" "one_extracted.txt")
      = Except.ok "alpha" from rfl, exBind_ok]
  show find_relevant_clauses providerBeta "sop text" (extract_clauses "alpha") = _
  rw [show extract_clauses "alpha" = ["alpha"] from rfl]
  rw [find_relevant_clauses_ok (0.4 : ℚ)
    (show providerBeta.encode "sop text" = Except.ok [1] from rfl)
    (show ["alpha"].mapM providerBeta.encode = Except.ok [[1]] from rfl)]
  rw [show calculate_similarity providerBeta [1] [[1]] = [1] from rfl]
  have hsc : ((1 : ℚ) ≥ 0.4) := by norm_num
  simp [List.filter_cons, hsc]

theorem envThree_two :
    process_single_regulatory_doc providerBeta envThree "sop text"
      (pyJoin "regs" "two_extracted.txt") = Except.ok [] := by
  unfold process_single_regulatory_doc
  rw [show load_text envThree (pyJoin "regs" "two_extracted.txt")
      = Except.ok "beta" from rfl, exBind_ok]
  show find_relevant_clauses providerBeta "sop text" (extract_clauses "beta") = _
  rw [show extract_clauses "beta" = ["beta"] from rfl]
  rw [find_relevant_clauses_ok (0.4 : ℚ)
    (show providerBeta.encode "sop text" = Except.ok [1] from rfl)
    (show ["beta"].mapM providerBeta.encode = Except.ok [[0]] from rfl)]
  rw [show calculate_similarity providerBeta [1] [[0]] = [0] from rfl]
  have hsc : ¬ ((0 : ℚ) ≥ 0.4) := by norm_num
  simp [List.filter_cons, hsc]

theorem envThree_three :
    process_single_regulatory_doc providerBeta envThree "sop text"
      (pyJoin "regs" "three_extracted.txt") = Except.ok [("gamma", 1)] := by
  unfold process_single_regulatory_doc
  rw [show load_text envThree (pyJoin "regs" "three_extracted.txt")
      = Except.ok "gamma" from rfl, exBind_ok]
  show find_relevant_clauses providerBeta "sop text" (extract_clauses "gamma") = _
  rw [show extract_clauses "gamma" = ["gamma"] from rfl]
  rw [find_relevant_clauses_ok (0.4 : ℚ)
    (show providerBeta.encode "sop text" = Except.ok [1] from rfl)
    (show ["gamma"].mapM providerBeta.encode = Except.ok [[1]] from rfl)]
  rw [show calculate_similarity providerBeta [1] [[1]] = [1] from rfl]
  have hsc : ((1 : ℚ) ≥ 0.4) := by norm_num
  simp [List.filter_cons, hsc]

/-- Witness for claim C9: of the three eligible files, exactly the two whose
clauses score above the threshold appear in the aggregate, in listing
order; the ineligible listed file is ignored. -/
theorem claim_C9_w :
    process_regulatory_docs providerBeta envThree "sop.txt" "regs"
      = Except.ok (folder_aggregate_spec providerBeta envThree "sop text" "regs")
    ∧ folder_aggregate_spec providerBeta envThree "sop text" "regs"
      = [("one_extracted.txt", [("alpha", 1)]), ("three_extracted.txt", [("gamma", 1)])] := by
  have hok : ∀ f ∈ envThree.listing "regs",
      pyEndsWith (pyLower f) "_extracted.txt" = true →
      (process_single_regulatory_doc providerBeta envThree "sop text"
        (pyJoin "regs" f)).isOk = true := by
    intro f hf he
    have hf' : f = "one_extracted.txt" ∨ f = "two_extracted.txt" ∨ f = "notes.txt"
        ∨ f = "three_extracted.txt" := by
      simpa [envThree] using hf
    rcases hf' with rfl | rfl | rfl | rfl
    · rw [envThree_one]; rfl
    · rw [envThree_two]; rfl
    · exact absurd he (by decide)
    · rw [envThree_three]; rfl
  constructor
  · exact claim_C9 providerBeta envThree "sop.txt" "regs" "sop text" rfl hok
  · unfold folder_aggregate_spec
    rw [show envThree.listing "regs" = ["one_extracted.txt", "two_extracted.txt",
        "notes.txt", "three_extracted.txt"] from rfl]
    simp [envThree_one, envThree_two, envThree_three,
      show pyEndsWith (pyLower "one_extracted.txt") "_extracted.txt" = true from rfl,
      show pyEndsWith (pyLower "two_extracted.txt") "_extracted.txt" = true from rfl,
      show pyEndsWith (pyLower "notes.txt") "_extracted.txt" = false from rfl,
      show pyEndsWith (pyLower "three_extracted.txt") "_extracted.txt" = true from rfl]

theorem exBind_error_of {α β : Type} (x : Except String α) (f : α → Except String β)
    (h : ∀ a, ∃ e, f a = Except.error e) : ∃ e, (x >>= f) = Except.error e := by
  cases x with
  | error e => exact ⟨e, rfl⟩
  | ok a =>
    obtain ⟨e, he⟩ := h a
    exact ⟨e, by rw [exBind_ok]; exact he⟩

theorem foldl_reports_length (client : String → Nat → Except String String)
    (timestamp sop_text : String) :
    ∀ (rs : List (String × List (String × ℚ))) (acc : List String × (String → Option String)),
      ((rs.foldl
        (fun acc dc =>
          let prompt := create_prompt sop_text dc.2 dc.1
          let report := generate_report_with_claude client prompt
          let pr := save_report timestamp acc.2 report dc.1
          (acc.1 ++ [pr.1], pr.2))
        acc).1).length = acc.1.length + rs.length := by
  intro rs
  induction rs with
  | nil => intro acc; simp
  | cons r rs ih =>
    intro acc
    rw [List.foldl_cons, ih]
    simp
    omega

/-- Two-document folder in which the first listed regulation file cannot be
opened while the second is healthy. -/
def envAbort : Env :=
  ⟨fun p => if p = "sop.txt" then some "sop text"
      else if p = "regs/good_extracted.txt" then some "good clause" else none,
   fun _ => ["bad_extracted.txt", "good_extracted.txt"],
   fun _ => true⟩

/-- The same folder with only the healthy regulation file listed. -/
def envGoodOnly : Env :=
  ⟨fun p => if p = "sop.txt" then some "sop text"
      else if p = "regs/good_extracted.txt" then some "good clause" else none,
   fun _ => ["good_extracted.txt"],
   fun _ => true⟩

theorem envGoodOnly_single :
    process_single_regulatory_doc providerBeta envGoodOnly "sop text"
      (pyJoin "regs" "good_extracted.txt") = Except.ok [("good clause", 1)] := by
  unfold process_single_regulatory_doc
  rw [show load_text envGoodOnly (pyJoin "regs" "good_extracted.txt")
      = Except.ok "good clause" from rfl, exBind_ok]
  show find_relevant_clauses providerBeta "sop text" (extract_clauses "good clause") = _
  rw [show extract_clauses "good clause" = ["good clause"] from rfl]
  rw [find_relevant_clauses_ok (0.4 : ℚ)
    (show providerBeta.encode "sop text" = Except.ok [1] from rfl)
    (show ["good clause"].mapM providerBeta.encode = Except.ok [[1]] from rfl)]
  rw [show calculate_similarity providerBeta [1] [[1]] = [1] from rfl]
  have hsc : ((1 : ℚ) ≥ 0.4) := by norm_num
  simp [List.filter_cons, hsc]

theorem envGoodOnly_folder :
    process_regulatory_docs providerBeta envGoodOnly "sop.txt" "regs"
      = Except.ok [("good_extracted.txt", [("good clause", 1)])] := by
  unfold process_regulatory_docs
  rw [show load_text envGoodOnly "sop.txt" = Except.ok "sop text" from rfl, exBind_ok]
  rw [show envGoodOnly.listing "regs" = ["good_extracted.txt"] from rfl]
  rw [List.foldlM_cons]
  simp only [show pyEndsWith (pyLower "good_extracted.txt") "_extracted.txt" = true from rfl,
    if_true, envGoodOnly_single, exBind_ok]
  rfl

/-- Claim C2 as frozen is refuted: in folder mode a regulation file that
cannot be opened aborts the whole run with the raised error — the healthy
second document, which on its own yields an aggregated result, is never
processed and nothing is recorded per-document. -/
theorem claim_C2_cex :
    process_regulatory_docs providerBeta envAbort "sop.txt" "regs"
      = Except.error ("FileNotFoundError: " ++ pyJoin "regs" "bad_extracted.txt")
    ∧ process_regulatory_docs providerBeta envGoodOnly "sop.txt" "regs"
      = Except.ok [("good_extracted.txt", [("good clause", 1)])] :=
  ⟨rfl, envGoodOnly_folder⟩

/-- Claim C2 (amended): an LLM failure while generating one document's report
does not abort folder mode — generate_report_with_claude folds the error into
that document's report text and every aggregated document still yields a saved
report path; but a regulation file that cannot be opened (equally, an
embedding failure) raises out of process_regulatory_docs and aborts processing
of the remaining documents. -/
theorem claim_C2_amended :
    (∀ (P : Provider) (env : Env) (client : String → Nat → Except String String)
      (timestamp : String) (fs : String → Option String) (sop_file folder : String)
      (results : List (String × List (String × ℚ))),
      process_regulatory_docs P env sop_file folder = Except.ok results →
      ∃ paths fs2, analyze_all_regulations P env client timestamp fs sop_file folder
          = Except.ok (paths, fs2) ∧ paths.length = results.length)
    ∧ (∀ (P : Provider) (env : Env) (sop_file folder sop_text filename : String),
      load_text env sop_file = Except.ok sop_text →
      filename ∈ env.listing folder →
      pyEndsWith (pyLower filename) "_extracted.txt" = true →
      env.files (pyJoin folder filename) = none →
      ∃ e, process_regulatory_docs P env sop_file folder = Except.error e) := by
  constructor
  · intro P env client ts fs sop folder results h
    have hload : ∃ s, load_text env sop = Except.ok s := by
      unfold process_regulatory_docs at h
      cases hl : load_text env sop with
      | error e => rw [hl, exBind_error] at h; exact absurd h (by simp)
      | ok s => exact ⟨s, rfl⟩
    obtain ⟨s, hl⟩ := hload
    unfold analyze_all_regulations
    rw [h, exBind_ok]
    by_cases hres : results.isEmpty = true
    · simp only [hres, if_true]
      refine ⟨[], fs, rfl, ?_⟩
      have hnil : results = [] := by
        cases results with
        | nil => rfl
        | cons a as => simp [List.isEmpty] at hres
      simp [hnil]
    · rw [Bool.not_eq_true] at hres
      simp only [hres, Bool.false_eq_true, if_false]
      rw [hl, exBind_ok]
      refine ⟨_, _, rfl, ?_⟩
      have hlen := foldl_reports_length client ts s results ([], fs)
      simpa using hlen
  · intro P env sop folder sop_text filename hl hmem he hmiss
    obtain ⟨l1, l2, hsplit⟩ := List.append_of_mem hmem
    unfold process_regulatory_docs
    rw [hl, exBind_ok, hsplit, List.foldlM_append]
    apply exBind_error_of
    intro acc
    rw [List.foldlM_cons]
    have hp : process_single_regulatory_doc P env sop_text (pyJoin folder filename)
        = Except.error ("FileNotFoundError: " ++ pyJoin folder filename) := by
      have hload_err : load_text env (pyJoin folder filename)
          = Except.error ("FileNotFoundError: " ++ pyJoin folder filename) := by
        unfold load_text
        rw [hmiss]
      unfold process_single_regulatory_doc
      rw [hload_err, exBind_error]
    simp only [he, if_true, hp, exBind_error]
    exact ⟨_, rfl⟩

/-- Witness for the amended claim C2: with a concrete one-document folder and
an always-failing LLM, folder mode still returns one report path. -/
theorem claim_C2_amended_w :
    ∃ paths fs2,
      analyze_all_regulations providerBeta envGoodOnly (fun _ _ => Except.error "llm down")
        "20250101_120000" (fun _ => none) "sop.txt" "regs" = Except.ok (paths, fs2)
      ∧ paths.length = 1 := by
  obtain ⟨paths, fs2, h1, h2⟩ := claim_C2_amended.1 providerBeta envGoodOnly
    (fun _ _ => Except.error "llm down") "20250101_120000" (fun _ => none) "sop.txt" "regs"
    [("good_extracted.txt", [("good clause", 1)])] envGoodOnly_folder
  exact ⟨paths, fs2, h1, by rw [h2]; rfl⟩

end RegulationTask
